import Mathlib

/-!
Shallow embedding of the weather-thingy repository.

The embedding covers:
* src/lib/weather-service.ts : formatWeatherDataFromAPI25 and getCityFromCoords;
* the geolocation hook (useGeolocation) : requestGeolocation,
  checkPermissionAndGetLocation, useFallbackLocation and the
  getCurrentPosition error callback;
* the page component : fetchWeatherByCoordinates, handleSearch and the
  fallbackWeatherData constant.

Conventions of the embedding:
* JavaScript numbers are modelled as rationals; Math.round is
  floor(x + 1/2), which matches the JS half-up rounding for all inputs.
* Unix timestamps (item.dt) are naturals counting seconds since the epoch.
* The local timezone of the runtime is a parameter "off" : the offset east
  of UTC in seconds, taken modulo 86400 (DST shifts are not modelled).
  date.getHours() and date.getDay() use the local clock dt + off, while
  date.toISOString() uses UTC, exactly as in JS.
* Network and browser effects (fetch outcomes, permission query results,
  position results) are explicit inputs, and the React setState calls are
  modelled as the state record that the handler finally stores.
-/

/-- JS Math.round : rounds half away from zero toward positive infinity,
that is floor(x + 1/2). -/
def jsRound (x : ℚ) : Int := Int.floor (x + 1/2)

/-- JS String.prototype.toUpperCase, as the character-wise map it performs
on the ASCII strings of this app. -/
def jsToUpper (s : String) : String := String.mk (s.data.map Char.toUpper)

/-- JS String.prototype.toLowerCase, as the character-wise map it performs
on the ASCII strings of this app. -/
def jsToLower (s : String) : String := String.mk (s.data.map Char.toLower)

/-- JS String.prototype.trim : strip whitespace from both ends. -/
def jsTrim (s : String) : String :=
  String.mk (((s.data.dropWhile Char.isWhitespace).reverse.dropWhile
    Char.isWhitespace).reverse)

/-- The DAYS constant of weather-service.ts. -/
def DAYS : List String := ["SUN", "MON", "TUE", "WED", "THU", "FRI", "SAT"]

/-- UTC calendar day of a timestamp, the injective image of
date.toISOString().split("T")[0]. -/
def dayKey (dt : Nat) : Nat := dt / 86400

/-- date.getHours() for a runtime whose local clock is off seconds east of
UTC. -/
def localHours (off dt : Nat) : Nat := ((dt + off) / 3600) % 24

/-- date.getDay() for the same local clock; the epoch fell on a Thursday,
day number 4. -/
def dayOfWeek (off dt : Nat) : Nat := ((dt + off) / 86400 + 4) % 7

/-- One element of forecastData.list : the timestamp, main.temp and
weather[0].main fields that formatWeatherDataFromAPI25 reads. -/
structure ForecastItem where
  dt : Nat
  temp : ℚ
  weatherMain : String
  deriving DecidableEq, Repr

/-- The fields of the current-conditions response that
formatWeatherDataFromAPI25 reads; visibility is optional in the upstream
payload. -/
structure CurrentData where
  temp : ℚ
  temp_max : ℚ
  temp_min : ℚ
  humidity : ℚ
  wind_speed : ℚ
  visibility : Option ℚ
  weatherMain : String
  deriving DecidableEq, Repr

/-- One entry of the canonical forecast. -/
structure ForecastDay where
  day : String
  temp : Int
  condition : String
  deriving DecidableEq, Repr

/-- The canonical weather record of the app. -/
structure WeatherData where
  location : String
  temperature : Int
  condition : String
  high : Int
  low : Int
  humidity : ℚ
  wind : Int
  visibility : Int
  forecast : List ForecastDay
  deriving DecidableEq, Repr

/-- One step of the forecastsByDay accumulation : push the item onto the
group of its UTC day, creating the group at the end on first sight.  JS
object keys that are not array indices keep insertion order, which the
list of pairs reproduces. -/
def addToGroups (groups : List (Nat × List ForecastItem)) (it : ForecastItem) :
    List (Nat × List ForecastItem) :=
  if groups.any (fun g => g.1 = dayKey it.dt) then
    groups.map (fun g => if g.1 = dayKey it.dt then (g.1, g.2 ++ [it]) else g)
  else
    groups ++ [(dayKey it.dt, [it])]

/-- forecastsByDay : the grouping of forecastData.list by UTC calendar day,
in order of first appearance. -/
def groupByDay (items : List ForecastItem) : List (Nat × List ForecastItem) :=
  items.foldl addToGroups []

/-- The predicate of the noon search : date.getHours() >= 11 &&
date.getHours() <= 13. -/
def isNoonItem (off : Nat) (it : ForecastItem) : Bool :=
  decide (11 ≤ localHours off it.dt) && decide (localHours off it.dt ≤ 13)

/-- items.find(aroundNoon) || items[0] : the first item of the day whose
local hour lies in 11..13, else the first item of the day. -/
def pickForDay (off : Nat) (items : List ForecastItem) : ForecastItem :=
  match items.find? (isNoonItem off) with
  | some it => it
  | none => items.headD ⟨0, 0, ""⟩

/-- The ForecastDay pushed for a chosen item : DAYS[date.getDay()], the
rounded temperature and the lower-cased condition. -/
def renderItem (off : Nat) (it : ForecastItem) : ForecastDay :=
  { day := DAYS.getD (dayOfWeek off it.dt) "",
    temp := jsRound it.temp,
    condition := jsToLower it.weatherMain }

/-- The loop over Object.keys(forecastsByDay).slice(0, 5). -/
def processedForecast (off : Nat) (items : List ForecastItem) : List ForecastDay :=
  ((groupByDay items).take 5).map (fun g => renderItem off (pickForDay off g.2))

/-- One synthetic entry of the fill loop : the label comes from now plus
len days (plus one day when the list is still empty), the temperature is
the rounded current temperature, the condition is the literal "cloudy". -/
def synthDay (off now : Nat) (curTemp : ℚ) (len : Nat) : ForecastDay :=
  let d := if len > 0 then len else 1
  { day := DAYS.getD (dayOfWeek off (now + d * 86400)) "",
    temp := jsRound curTemp,
    condition := "cloudy" }

/-- The while loop that appends synthetic entries until the forecast has 5
entries. -/
def fillForecast (off now : Nat) (curTemp : ℚ) (fc : List ForecastDay) :
    List ForecastDay :=
  if fc.length < 5 then
    fillForecast off now curTemp (fc ++ [synthDay off now curTemp fc.length])
  else fc
  termination_by 5 - fc.length
  decreasing_by simp only [List.length_append, List.length_cons, List.length_nil]; omega

/-- currentData.visibility || 10000 : any falsy value, absent or zero,
yields the 10000 metre default. -/
def visibilityOrDefault : Option ℚ → ℚ
  | none => 10000
  | some v => if v = 0 then 10000 else v

/-- formatWeatherDataFromAPI25 of weather-service.ts, parameterised by the
local timezone offset and the current time used by the fill loop. -/
def formatWeatherDataFromAPI25 (off now : Nat) (currentData : CurrentData)
    (forecastList : List ForecastItem) : WeatherData :=
  { location := "Current Location",
    temperature := jsRound currentData.temp,
    condition := jsToUpper currentData.weatherMain,
    high := jsRound currentData.temp_max,
    low := jsRound currentData.temp_min,
    humidity := currentData.humidity,
    wind := jsRound currentData.wind_speed,
    visibility := jsRound (visibilityOrDefault currentData.visibility / 1000),
    forecast := fillForecast off now currentData.temp
      (processedForecast off forecastList) }

/-- One reverse-geocoding result : the name and country fields. -/
structure GeoResult where
  name : String
  country : String
  deriving DecidableEq, Repr

/-- How the reverse-geocoding fetch of getCityFromCoords can end : a
non-ok HTTP status, a thrown error, or a parsed result list. -/
inductive ReverseGeoOutcome where
  | httpError (status : Nat)
  | thrown
  | results (l : List GeoResult)
  deriving DecidableEq, Repr

/-- The New-York-epsilon test of getCityFromCoords :
Math.abs(lat - 40.7128) < 0.01 && Math.abs(lon - (-74.0060)) < 0.01. -/
def isNYFallbackCoords (lat lon : ℚ) : Bool :=
  decide (|lat - 40.7128| < 0.01) && decide (|lon - (-74.0060)| < 0.01)

/-- getCityFromCoords of weather-service.ts, with the fetch outcome as an
explicit input.  The empty-result branch returns "Current Location"
unconditionally; only the HTTP-error and thrown branches consult the
New-York-epsilon test. -/
def getCityFromCoords (lat lon : ℚ) (o : ReverseGeoOutcome) : String :=
  match o with
  | .httpError _ =>
      if isNYFallbackCoords lat lon then "NEW YORK, US" else "Current Location"
  | .thrown =>
      if isNYFallbackCoords lat lon then "NEW YORK, US" else "Current Location"
  | .results [] => "Current Location"
  | .results (r :: _) => jsToUpper r.name ++ ", " ++ r.country

/-- The state record of the useGeolocation hook. -/
structure GeoState where
  coordinates : Option (ℚ × ℚ)
  error : Option String
  loading : Bool
  permissionGranted : Option Bool
  permissionState : Option String
  deriving DecidableEq, Repr

/-- useFallbackLocation of the hook : stores the New York coordinates,
appends " Using default location instead." to the message, clears loading,
and reports the fallback as a granted permission. -/
def useFallbackLocation (errorMessage : String) : GeoState :=
  { coordinates := some (40.7128, -74.0060),
    error := some (errorMessage ++ " Using default location instead."),
    loading := false,
    permissionGranted := some true,
    permissionState := some "fallback" }

/-- The error message of the pre-flight denied branch. -/
def preflightDeniedMsg (isFirefox : Bool) : String :=
  if isFirefox then
    "Permission denied. Please allow location access in your Firefox settings (Address Bar icon or Settings → Privacy & Security → Permissions → Location)."
  else
    "Permission denied. Please allow location access in your browser settings."

/-- The error callback passed to getCurrentPosition : code 1 is a denial,
code 2 and code 3 and every other code go through useFallbackLocation. -/
def positionErrorCallback (isFirefox : Bool) (code : Nat) (message : String) :
    GeoState :=
  if code = 1 then
    { coordinates := none,
      error := some (if isFirefox then
        "Permission denied. Please allow location access in Firefox settings (Address Bar icon or Settings → Privacy & Security → Permissions → Location)."
      else
        "Permission denied. Please allow location access to use this feature."),
      loading := false,
      permissionGranted := some false,
      permissionState := some "denied" }
  else if code = 2 then
    useFallbackLocation (if isFirefox then
      "Location permission granted, but position is currently unavailable. Please check your Operating System's location settings to ensure Firefox has access and location services are enabled. Using default location instead."
    else
      "Location unavailable. Using default location instead.")
  else if code = 3 then
    useFallbackLocation "Location request timed out. Using default location instead."
  else
    useFallbackLocation
      ("Geolocation error (" ++ toString code ++ "): " ++ message ++ ". Using default location instead.")

/-- What the pre-flight navigator.permissions.query can report : the API
is unavailable, the query throws, or it yields a permission state
string. -/
inductive PermQueryOutcome where
  | unavailable
  | queryError
  | state (s : String)
  deriving DecidableEq, Repr

/-- How getCurrentPosition resolves : the success callback with
coordinates, or the error callback with a code and a message. -/
inductive PositionOutcome where
  | success (lat lon : ℚ)
  | failure (code : Nat) (message : String)
  deriving DecidableEq, Repr

/-- The two getCurrentPosition callbacks as one function of the
outcome. -/
def handlePositionOutcome (isFirefox : Bool) (po : PositionOutcome) : GeoState :=
  match po with
  | .success lat lon =>
      { coordinates := some (lat, lon),
        error := none,
        loading := false,
        permissionGranted := some true,
        permissionState := some "granted" }
  | .failure code message => positionErrorCallback isFirefox code message

/-- checkPermissionAndGetLocation of the hook.  The Boolean of the result
records whether getCurrentPosition was invoked; a pre-flight query that
reports "denied" returns early, every other query outcome falls through
to the position request. -/
def checkPermissionAndGetLocation (isFirefox : Bool) (pq : PermQueryOutcome)
    (po : PositionOutcome) : GeoState × Bool :=
  let preflightDenied : Bool := match pq with
    | .state s => decide (s = "denied")
    | _ => false
  if preflightDenied then
    ({ coordinates := none,
       error := some (preflightDeniedMsg isFirefox),
       loading := false,
       permissionGranted := some false,
       permissionState := some "denied" }, false)
  else
    (handlePositionOutcome isFirefox po, true)

/-- requestGeolocation of the hook : when navigator.geolocation is absent
the previous state is patched with the unsupported error; otherwise the
flow of checkPermissionAndGetLocation decides the final state.  The
Boolean records whether a position request was ever issued. -/
def requestGeolocation (geoSupported isFirefox : Bool) (pq : PermQueryOutcome)
    (po : PositionOutcome) (prev : GeoState) : GeoState × Bool :=
  if geoSupported then
    checkPermissionAndGetLocation isFirefox pq po
  else
    ({ prev with
        error := some "Geolocation is not supported by your browser",
        permissionGranted := some false,
        loading := false,
        permissionState := some "unsupported" }, false)

/-- The fallbackWeatherData constant of the page component. -/
def fallbackWeatherData : WeatherData :=
  { location := "NEW YORK, US",
    temperature := 18,
    condition := "PARTLY CLOUDY",
    high := 21,
    low := 14,
    humidity := 65,
    wind := 12,
    visibility := 10,
    forecast := [
      { day := "MON", temp := 18, condition := "cloudy" },
      { day := "TUE", temp := 20, condition := "sunny" },
      { day := "WED", temp := 17, condition := "rainy" },
      { day := "THU", temp := 16, condition := "cloudy" },
      { day := "FRI", temp := 19, condition := "sunny" }] }

/-- err.message || "Please try again." -/
def jsOrString (s dflt : String) : String := if s = "" then dflt else s

/-- How the awaited body of fetchWeatherByCoordinates ends : the weather
record together with the resolved display name, or a thrown error whose
message is carried along. -/
inductive FetchOutcome where
  | success (d : WeatherData) (locationName : String)
  | failure (message : String)
  deriving DecidableEq, Repr

/-- The slice of component state that fetchWeatherByCoordinates and
handleSearch read and write. -/
structure AppState where
  searchQuery : String
  weatherData : Option WeatherData
  loading : Bool
  error : Option String
  deriving DecidableEq, Repr

/-- fetchWeatherByCoordinates of the page component : on success the
record is stored with the resolved location name; on failure the
hardcoded fallback record and a blocking error are substituted only when
no record was held, else the held record survives and the error stays
cleared.  The finally block always clears loading. -/
def fetchWeatherByCoordinates (prevWeatherData : Option WeatherData)
    (outcome : FetchOutcome) : Option WeatherData × Option String × Bool :=
  match outcome with
  | .success d locationName =>
      (some { d with location := locationName }, none, false)
  | .failure message =>
      match prevWeatherData with
      | none =>
          (some fallbackWeatherData,
           some ("Failed to fetch weather data: " ++ jsOrString message "Please try again."),
           false)
      | some d => (some d, none, false)

/-- How fetchWeatherByCity resolves inside handleSearch. -/
inductive SearchOutcome where
  | success (d : WeatherData)
  | failure
  deriving DecidableEq, Repr

/-- handleSearch of the page component.  The Boolean of the result
records whether a network call was issued : a blank or whitespace-only
query returns before any effect. -/
def handleSearch (s : AppState) (o : SearchOutcome) : AppState × Bool :=
  if jsTrim s.searchQuery = "" then (s, false)
  else
    match o with
    | .success d =>
        ({ s with
            weatherData := some d,
            searchQuery := "",
            error := none,
            loading := false }, true)
    | .failure =>
        ({ s with
            error := some "Location not found. Please try another search term.",
            loading := false }, true)

/-- Counterexample to C1 : at exactly the fallback coordinates, a
reverse-geocoding call that succeeds with an empty result list yields
"Current Location", not the "NEW YORK, US" label the claim requires for
every failure mode. -/
theorem c1_counterexample :
    isNYFallbackCoords 40.7128 (-74.0060) = true ∧
    getCityFromCoords 40.7128 (-74.0060) (ReverseGeoOutcome.results []) =
      "Current Location" ∧
    ("Current Location" : String) ≠ "NEW YORK, US" :=
  ⟨by norm_num [isNYFallbackCoords], rfl, by decide⟩

/-- C1 (amended) : getCityFromCoords is a total function into strings; on
a non-ok HTTP status or a thrown error it returns "NEW YORK, US" inside
the 0.01 epsilon box around the New York fallback constant and
"Current Location" outside it, while an empty result list returns
"Current Location" for every coordinate pair, the fallback box
included. -/
theorem c1_getCityFromCoords_failure_labels (lat lon : ℚ) (o : ReverseGeoOutcome) :
    ((o = ReverseGeoOutcome.thrown ∨ ∃ st, o = ReverseGeoOutcome.httpError st) →
      (isNYFallbackCoords lat lon = true →
        getCityFromCoords lat lon o = "NEW YORK, US") ∧
      (isNYFallbackCoords lat lon = false →
        getCityFromCoords lat lon o = "Current Location")) ∧
    (o = ReverseGeoOutcome.results [] →
      getCityFromCoords lat lon o = "Current Location") := by
  refine ⟨?_, ?_⟩
  · rintro (rfl | ⟨st, rfl⟩) <;>
      exact ⟨fun h => by simp [getCityFromCoords, h],
             fun h => by simp [getCityFromCoords, h]⟩
  · rintro rfl
    rfl

/-- Witness for C1 : the fallback box with a 500 status, a far-away point
with a thrown error, and the fallback box with an empty result list. -/
theorem c1_witness :
    getCityFromCoords 40.7128 (-74.0060) (ReverseGeoOutcome.httpError 500) =
      "NEW YORK, US" ∧
    getCityFromCoords 50 8 ReverseGeoOutcome.thrown = "Current Location" ∧
    getCityFromCoords 40.7128 (-74.0060) (ReverseGeoOutcome.results []) =
      "Current Location" :=
  ⟨((c1_getCityFromCoords_failure_labels 40.7128 (-74.0060)
      (ReverseGeoOutcome.httpError 500)).1 (Or.inr ⟨500, rfl⟩)).1
      (by norm_num [isNYFallbackCoords]),
   ((c1_getCityFromCoords_failure_labels 50 8 ReverseGeoOutcome.thrown).1
      (Or.inl rfl)).2 (by
        have h : ¬ (|(50 : ℚ) - 40.7128| < 0.01) := by
          rw [abs_sub_lt_iff]
          norm_num
        simp [isNYFallbackCoords, h]),
   (c1_getCityFromCoords_failure_labels 40.7128 (-74.0060)
      (ReverseGeoOutcome.results [])).2 rfl⟩

/-- C4 : every position failure whose code is not 1 lands in the fallback
state : the New York coordinates, loading cleared, permission state
"fallback", and an error message that ends with, hence contains, the
substring " Using default location instead.". -/
theorem c4_position_failure_uses_fallback (isFirefox : Bool) (code : Nat)
    (message : String) (h : code ≠ 1) :
    (positionErrorCallback isFirefox code message).coordinates =
      some (40.7128, -74.0060) ∧
    (positionErrorCallback isFirefox code message).loading = false ∧
    (positionErrorCallback isFirefox code message).permissionState =
      some "fallback" ∧
    ∃ p, (positionErrorCallback isFirefox code message).error =
      some (p ++ " Using default location instead.") := by
  unfold positionErrorCallback
  rw [if_neg h]
  by_cases h2 : code = 2
  · rw [if_pos h2]
    exact ⟨rfl, rfl, rfl, _, rfl⟩
  · rw [if_neg h2]
    by_cases h3 : code = 3
    · rw [if_pos h3]
      exact ⟨rfl, rfl, rfl, _, rfl⟩
    · rw [if_neg h3]
      exact ⟨rfl, rfl, rfl, _, rfl⟩

/-- Witness for C4 : the timeout code 3 on a non-Firefox browser. -/
theorem c4_witness :
    (3 : Nat) ≠ 1 ∧
    ((positionErrorCallback false 3 "").coordinates = some (40.7128, -74.0060) ∧
     (positionErrorCallback false 3 "").loading = false ∧
     (positionErrorCallback false 3 "").permissionState = some "fallback" ∧
     ∃ p, (positionErrorCallback false 3 "").error =
       some (p ++ " Using default location instead.")) :=
  ⟨by decide, c4_position_failure_uses_fallback false 3 "" (by decide)⟩

/-- C5 : when the pre-flight permission query reports "denied", the run
ends in the Denied state with no coordinates, permission not granted,
loading cleared, and the Boolean of the model certifies that
getCurrentPosition was never invoked, whatever the position outcome would
have been. -/
theorem c5_preflight_denied_blocks_position_request (isFirefox : Bool)
    (po : PositionOutcome) (prev : GeoState) :
    (requestGeolocation true isFirefox (PermQueryOutcome.state "denied") po prev).2 =
      false ∧
    (requestGeolocation true isFirefox (PermQueryOutcome.state "denied") po prev).1.coordinates =
      none ∧
    (requestGeolocation true isFirefox (PermQueryOutcome.state "denied") po prev).1.permissionGranted =
      some false ∧
    (requestGeolocation true isFirefox (PermQueryOutcome.state "denied") po prev).1.permissionState =
      some "denied" ∧
    (requestGeolocation true isFirefox (PermQueryOutcome.state "denied") po prev).1.loading =
      false := by
  simp [requestGeolocation, checkPermissionAndGetLocation]

/-- C7 : when the awaited fetch fails, a component holding no record
substitutes the hardcoded fallback record and a blocking error, while a
component already holding a record keeps it unchanged with the error left
cleared. -/
theorem c7_fetch_failure_keeps_existing_record (message : String) :
    (fetchWeatherByCoordinates none (FetchOutcome.failure message) =
      (some fallbackWeatherData,
       some ("Failed to fetch weather data: " ++ jsOrString message "Please try again."),
       false)) ∧
    (∀ d : WeatherData,
      fetchWeatherByCoordinates (some d) (FetchOutcome.failure message) =
        (some d, none, false)) :=
  ⟨rfl, fun _ => rfl⟩

/-- C8 : a blank or whitespace-only query makes handleSearch return the
state unchanged with no network call, and a failing non-blank search
keeps the record and the query while setting the location-not-found
error. -/
theorem c8_blank_search_is_noop (s : AppState) (o : SearchOutcome) :
    (jsTrim s.searchQuery = "" → handleSearch s o = (s, false)) ∧
    (jsTrim s.searchQuery ≠ "" →
      (handleSearch s SearchOutcome.failure).1.weatherData = s.weatherData ∧
      (handleSearch s SearchOutcome.failure).1.searchQuery = s.searchQuery ∧
      (handleSearch s SearchOutcome.failure).1.error =
        some "Location not found. Please try another search term." ∧
      (handleSearch s SearchOutcome.failure).2 = true) := by
  constructor
  · intro h
    simp [handleSearch, h]
  · intro h
    simp [handleSearch, h]

/-- Witness for C8 : a whitespace-only submission is a no-op; a failing
search for Paris keeps the absent record and sets the error. -/
theorem c8_witness :
    (handleSearch ⟨"   ", some fallbackWeatherData, false, none⟩
        (SearchOutcome.success fallbackWeatherData) =
      (⟨"   ", some fallbackWeatherData, false, none⟩, false)) ∧
    ((handleSearch ⟨"Paris", none, false, none⟩ SearchOutcome.failure).1.weatherData =
        none ∧
     (handleSearch ⟨"Paris", none, false, none⟩ SearchOutcome.failure).1.searchQuery =
        "Paris" ∧
     (handleSearch ⟨"Paris", none, false, none⟩ SearchOutcome.failure).1.error =
        some "Location not found. Please try another search term." ∧
     (handleSearch ⟨"Paris", none, false, none⟩ SearchOutcome.failure).2 = true) :=
  ⟨(c8_blank_search_is_noop ⟨"   ", some fallbackWeatherData, false, none⟩
      (SearchOutcome.success fallbackWeatherData)).1 (by decide),
   (c8_blank_search_is_noop ⟨"Paris", none, false, none⟩
      SearchOutcome.failure).2 (by decide)⟩

/-- Helper : whatever the position outcome, whenever the callback pair
lands in the fallback state it reports the permission as granted. -/
theorem handlePositionOutcome_fallback_grants (isFirefox : Bool)
    (po : PositionOutcome)
    (h : (handlePositionOutcome isFirefox po).permissionState = some "fallback") :
    (handlePositionOutcome isFirefox po).permissionGranted = some true := by
  cases po with
  | success lat lon => simp [handlePositionOutcome] at h
  | failure code msg =>
      simp only [handlePositionOutcome] at h ⊢
      unfold positionErrorCallback at h ⊢
      by_cases h1 : code = 1
      · simp [h1] at h
      · rw [if_neg h1] at h ⊢
        by_cases h2 : code = 2
        · simp [h2, useFallbackLocation]
        · by_cases h3 : code = 3 <;> simp [h2, h3, useFallbackLocation]

/-- C9 : every run of the hook that ends with permissionState "fallback"
also ends with permissionGranted true, and the useFallbackLocation
transition itself always writes exactly that pair, so acquiring fallback
coordinates is indistinguishable from a granted permission for the UI. -/
theorem c9_fallback_reports_permission_granted (geoSupported isFirefox : Bool)
    (pq : PermQueryOutcome) (po : PositionOutcome) (prev : GeoState)
    (h : (requestGeolocation geoSupported isFirefox pq po prev).1.permissionState =
      some "fallback") :
    (requestGeolocation geoSupported isFirefox pq po prev).1.permissionGranted =
      some true ∧
    (∀ msg, (useFallbackLocation msg).permissionGranted = some true ∧
      (useFallbackLocation msg).permissionState = some "fallback") := by
  refine ⟨?_, fun msg => ⟨rfl, rfl⟩⟩
  cases geoSupported with
  | false => simp [requestGeolocation] at h
  | true =>
      simp only [requestGeolocation, if_pos] at h ⊢
      cases pq with
      | unavailable =>
          simp only [checkPermissionAndGetLocation, if_neg] at h ⊢
          exact handlePositionOutcome_fallback_grants isFirefox po h
      | queryError =>
          simp only [checkPermissionAndGetLocation, if_neg] at h ⊢
          exact handlePositionOutcome_fallback_grants isFirefox po h
      | state s =>
          by_cases hs : s = "denied"
          · simp [checkPermissionAndGetLocation, hs] at h
          · simp only [checkPermissionAndGetLocation, hs, decide_eq_true_eq,
              if_false, decide_eq_false hs, Bool.false_eq_true] at h ⊢
            exact handlePositionOutcome_fallback_grants isFirefox po h

/-- Witness for C9 : a supported browser whose position request times out
lands in the fallback state. -/
theorem c9_witness :
    (requestGeolocation true false PermQueryOutcome.unavailable
        (PositionOutcome.failure 3 "t") ⟨none, none, false, none, none⟩).1.permissionState =
      some "fallback" ∧
    ((requestGeolocation true false PermQueryOutcome.unavailable
        (PositionOutcome.failure 3 "t") ⟨none, none, false, none, none⟩).1.permissionGranted =
      some true ∧
    (∀ msg, (useFallbackLocation msg).permissionGranted = some true ∧
      (useFallbackLocation msg).permissionState = some "fallback")) :=
  ⟨rfl,
   c9_fallback_reports_permission_granted true false PermQueryOutcome.unavailable
     (PositionOutcome.failure 3 "t") ⟨none, none, false, none, none⟩ rfl⟩

/-- Counterexample to C6 : a present upstream visibility of exactly 0
metres yields a canonical visibility of 10, not the value 0 that dividing
it by 1000 and rounding would give, so the claimed formula fails on the
falsy input. -/
theorem c6_counterexample :
    (formatWeatherDataFromAPI25 0 0 ⟨20, 25, 15, 50, 5, some 0, "Clouds"⟩ []).visibility =
      10 ∧
    jsRound ((0 : ℚ) / 1000) = 0 ∧
    (10 : Int) ≠ 0 := by
  refine ⟨?_, ?_, by decide⟩
  · show jsRound (visibilityOrDefault (some 0) / 1000) = 10
    norm_num [visibilityOrDefault, jsRound, Int.floor_eq_iff]
  · norm_num [jsRound, Int.floor_eq_iff]

/-- C6 (amended) : canonical visibility is the metre value divided by 1000
and rounded half-up, with 10000 metres assumed whenever the upstream value
is absent or zero, both falsy; absent and zero therefore yield 10, and any
non-zero value v yields round(v / 1000). -/
theorem c6_visibility_conversion (off now : Nat) (cd : CurrentData)
    (fl : List ForecastItem) :
    ((cd.visibility = none ∨ cd.visibility = some 0) →
      (formatWeatherDataFromAPI25 off now cd fl).visibility = 10) ∧
    (∀ v : ℚ, cd.visibility = some v → v ≠ 0 →
      (formatWeatherDataFromAPI25 off now cd fl).visibility = jsRound (v / 1000)) := by
  constructor
  · rintro (h | h) <;>
    · show jsRound (visibilityOrDefault cd.visibility / 1000) = 10
      rw [h]
      norm_num [visibilityOrDefault, jsRound, Int.floor_eq_iff]
  · intro v hv hne
    show jsRound (visibilityOrDefault cd.visibility / 1000) = jsRound (v / 1000)
    rw [hv]
    simp [visibilityOrDefault, hne]

/-- Witness for C6 : visibility absent yields 10 and visibility 8000
yields round(8) = 8. -/
theorem c6_witness :
    (formatWeatherDataFromAPI25 0 0 ⟨20, 25, 15, 50, 5, none, "Clouds"⟩ []).visibility =
      10 ∧
    (formatWeatherDataFromAPI25 0 0 ⟨20, 25, 15, 50, 5, some 8000, "Clouds"⟩ []).visibility =
      jsRound ((8000 : ℚ) / 1000) ∧
    jsRound ((8000 : ℚ) / 1000) = 8 :=
  ⟨(c6_visibility_conversion 0 0 ⟨20, 25, 15, 50, 5, none, "Clouds"⟩ []).1 (Or.inl rfl),
   (c6_visibility_conversion 0 0 ⟨20, 25, 15, 50, 5, some 8000, "Clouds"⟩ []).2
     8000 rfl (by norm_num),
   by norm_num [jsRound, Int.floor_eq_iff]⟩

/-- C10 : a present upstream visibility of exactly 0 metres produces the
same canonical visibility, 10, as an absent value : the falsiness default
is applied before the division, making 0 indistinguishable from
absence. -/
theorem c10_zero_visibility_defaults_to_ten (off now : Nat) (cd : CurrentData)
    (fl : List ForecastItem) (h : cd.visibility = some 0) :
    (formatWeatherDataFromAPI25 off now cd fl).visibility = 10 ∧
    (formatWeatherDataFromAPI25 off now { cd with visibility := none } fl).visibility =
      (formatWeatherDataFromAPI25 off now cd fl).visibility := by
  have hv : visibilityOrDefault cd.visibility = 10000 := by
    rw [h]
    simp [visibilityOrDefault]
  constructor
  · show jsRound (visibilityOrDefault cd.visibility / 1000) = 10
    rw [hv]
    norm_num [jsRound, Int.floor_eq_iff]
  · show jsRound (visibilityOrDefault none / 1000) =
      jsRound (visibilityOrDefault cd.visibility / 1000)
    rw [hv]
    rfl

/-- Witness for C10 at a concrete record with visibility 0. -/
theorem c10_witness :
    (⟨20, 25, 15, 50, 5, some 0, "Clouds"⟩ : CurrentData).visibility = some 0 ∧
    ((formatWeatherDataFromAPI25 0 0 ⟨20, 25, 15, 50, 5, some 0, "Clouds"⟩ []).visibility =
      10 ∧
     (formatWeatherDataFromAPI25 0 0 ⟨20, 25, 15, 50, 5, none, "Clouds"⟩ []).visibility =
      (formatWeatherDataFromAPI25 0 0 ⟨20, 25, 15, 50, 5, some 0, "Clouds"⟩ []).visibility) :=
  ⟨rfl, c10_zero_visibility_defaults_to_ten 0 0 ⟨20, 25, 15, 50, 5, some 0, "Clouds"⟩ [] rfl⟩

/-- Helper : the fill loop appends exactly the synthetic entries indexed
by the lengths the list passes through. -/
theorem fillForecast_eq_append (off now : Nat) (t : ℚ) :
    ∀ (n : Nat) (fc : List ForecastDay), 5 - fc.length ≤ n →
    fillForecast off now t fc =
      fc ++ (List.range (5 - fc.length)).map (fun j => synthDay off now t (fc.length + j)) := by
  intro n
  induction n with
  | zero =>
      intro fc h
      have h5 : ¬ fc.length < 5 := by omega
      have h0 : 5 - fc.length = 0 := by omega
      rw [fillForecast, if_neg h5, h0]
      simp
  | succ n ih =>
      intro fc h
      by_cases hlt : fc.length < 5
      · rw [fillForecast, if_pos hlt,
          ih (fc ++ [synthDay off now t fc.length])
            (by simp only [List.length_append, List.length_cons, List.length_nil]; omega),
          List.append_assoc]
        congr 1
        simp only [List.length_append, List.length_cons, List.length_nil, Nat.add_zero]
        have h5 : 5 - fc.length = (5 - (fc.length + 1)) + 1 := by omega
        rw [h5, List.range_succ_eq_map]
        simp only [List.map_cons, List.map_map, List.singleton_append, Nat.add_zero]
        have hfun : ((fun j => synthDay off now t (fc.length + j)) ∘ Nat.succ) =
            (fun j => synthDay off now t (fc.length + 1 + j)) := by
          funext j
          simp only [Function.comp_apply]
          have hnat : fc.length + Nat.succ j = fc.length + 1 + j := by omega
          rw [hnat]
        rw [hfun]
      · rw [fillForecast, if_neg hlt]
        have h0 : 5 - fc.length = 0 := by omega
        rw [h0]
        simp

/-- Helper : a forecast of at most 5 entries is filled to exactly 5. -/
theorem fillForecast_length (off now : Nat) (t : ℚ) (fc : List ForecastDay)
    (h : fc.length ≤ 5) : (fillForecast off now t fc).length = 5 := by
  rw [fillForecast_eq_append off now t 5 fc (by omega)]
  simp only [List.length_append, List.length_map, List.length_range]
  omega

/-- Helper : the processed forecast takes one entry per distinct day, at
most 5. -/
theorem processedForecast_length (off : Nat) (items : List ForecastItem) :
    (processedForecast off items).length = min (groupByDay items).length 5 := by
  simp [processedForecast, Nat.min_comm]

/-- C2 : for every upstream response with between 0 and 10 distinct
forecast days, the canonical forecast has exactly 5 entries, and every
position at or beyond the number of distinct days is a synthetic entry
carrying the rounded current temperature and the default condition label
"cloudy". -/
theorem c2_forecast_always_five (off now : Nat) (cd : CurrentData)
    (fl : List ForecastItem) (hdays : (groupByDay fl).length ≤ 10) :
    (formatWeatherDataFromAPI25 off now cd fl).forecast.length = 5 ∧
    (∀ i, (groupByDay fl).length ≤ i → i < 5 →
      ((formatWeatherDataFromAPI25 off now cd fl).forecast.getD i ⟨"", 0, ""⟩).temp =
        jsRound cd.temp ∧
      ((formatWeatherDataFromAPI25 off now cd fl).forecast.getD i ⟨"", 0, ""⟩).condition =
        "cloudy") := by
  have hplen : (processedForecast off fl).length = min (groupByDay fl).length 5 :=
    processedForecast_length off fl
  have hple5 : (processedForecast off fl).length ≤ 5 := by omega
  have hfc : (formatWeatherDataFromAPI25 off now cd fl).forecast =
      fillForecast off now cd.temp (processedForecast off fl) := rfl
  constructor
  · rw [hfc]
    exact fillForecast_length off now cd.temp _ hple5
  · intro i hGi hi5
    have hpi : (processedForecast off fl).length ≤ i := by omega
    rw [hfc, fillForecast_eq_append off now cd.temp 5 _ (by omega),
      List.getD_eq_getElem?_getD, List.getElem?_append_right hpi,
      List.getElem?_map,
      List.getElem?_range
        (by omega : i - (processedForecast off fl).length <
          5 - (processedForecast off fl).length)]
    simp [synthDay]

/-- Witness for C2 : an empty upstream list yields 5 synthetic entries. -/
theorem c2_witness :
    (groupByDay ([] : List ForecastItem)).length ≤ 10 ∧
    (formatWeatherDataFromAPI25 0 0 ⟨20, 25, 15, 50, 5, none, "Clouds"⟩ []).forecast.length =
      5 ∧
    ((formatWeatherDataFromAPI25 0 0 ⟨20, 25, 15, 50, 5, none, "Clouds"⟩ []).forecast.getD
       2 ⟨"", 0, ""⟩).condition = "cloudy" ∧
    ((formatWeatherDataFromAPI25 0 0 ⟨20, 25, 15, 50, 5, none, "Clouds"⟩ []).forecast.getD
       2 ⟨"", 0, ""⟩).temp = jsRound (20 : ℚ) :=
  ⟨by decide,
   (c2_forecast_always_five 0 0 ⟨20, 25, 15, 50, 5, none, "Clouds"⟩ [] (by decide)).1,
   ((c2_forecast_always_five 0 0 ⟨20, 25, 15, 50, 5, none, "Clouds"⟩ [] (by decide)).2
      2 (by decide) (by decide)).2,
   ((c2_forecast_always_five 0 0 ⟨20, 25, 15, 50, 5, none, "Clouds"⟩ [] (by decide)).2
      2 (by decide) (by decide)).1⟩

/-- Helper : every item stored in a group of forecastsByDay has exactly
the day key of that group. -/
theorem groupByDay_keys (fl : List ForecastItem) :
    ∀ g ∈ groupByDay fl, ∀ it ∈ g.2, dayKey it.dt = g.1 := by
  suffices h : ∀ (items : List ForecastItem) (acc : List (Nat × List ForecastItem)),
      (∀ g ∈ acc, ∀ it ∈ g.2, dayKey it.dt = g.1) →
      ∀ g ∈ items.foldl addToGroups acc, ∀ it ∈ g.2, dayKey it.dt = g.1 by
    exact h fl [] (by simp)
  intro items
  induction items with
  | nil =>
      intro acc hacc
      simpa using hacc
  | cons x xs ih =>
      intro acc hacc
      simp only [List.foldl_cons]
      refine ih _ ?_
      intro g hg it hit
      rw [addToGroups] at hg
      split at hg
      · obtain ⟨g0, hg0, hgeq⟩ := List.mem_map.mp hg
        by_cases hk : g0.1 = dayKey x.dt
        · rw [if_pos hk] at hgeq
          subst hgeq
          rcases List.mem_append.mp hit with h1 | h2
          · exact hacc g0 hg0 it h1
          · simp only [List.mem_singleton] at h2
            subst h2
            exact hk.symm
        · rw [if_neg hk] at hgeq
          subst hgeq
          exact hacc g0 hg0 it hit
      · rcases List.mem_append.mp hg with h1 | h2
        · exact hacc g h1 it hit
        · simp only [List.mem_singleton] at h2
          subst h2
          simp only [List.mem_singleton] at hit
          subst hit
          rfl

/-- Helper : the noon pick returns the first item whose local hour lies in
11..13 when one exists and the first item of the day otherwise. -/
theorem pickForDay_spec (off : Nat) (items : List ForecastItem) :
    ((∃ it ∈ items, isNoonItem off it = true) →
      ∃ n, ∃ hn : n < items.length,
        isNoonItem off (items.getD n ⟨0, 0, ""⟩) = true ∧
        pickForDay off items = items.getD n ⟨0, 0, ""⟩ ∧
        ∀ j, j < n → isNoonItem off (items.getD j ⟨0, 0, ""⟩) = false) ∧
    ((∀ it ∈ items, isNoonItem off it = false) →
      pickForDay off items = items.headD ⟨0, 0, ""⟩) := by
  constructor
  · rintro ⟨w, hw, hnw⟩
    cases hfind : items.find? (isNoonItem off) with
    | none =>
        exact absurd hnw (by simpa using List.find?_eq_none.mp hfind w hw)
    | some a =>
        have hf := hfind
        rw [List.find?_eq_some_iff_getElem] at hf
        obtain ⟨hpa, n, hn, hget, hprev⟩ := hf
        refine ⟨n, hn, ?_, ?_, ?_⟩
        · rw [List.getD_eq_getElem?_getD, List.getElem?_eq_getElem hn]
          simpa [hget] using hpa
        · simp [pickForDay, hfind, List.getD_eq_getElem?_getD,
            List.getElem?_eq_getElem hn, hget]
        · intro j hj
          have hpj := hprev j hj
          rw [List.getD_eq_getElem?_getD,
            List.getElem?_eq_getElem (by omega : j < items.length)]
          simpa using hpj
  · intro h
    have hfind : items.find? (isNoonItem off) = none :=
      List.find?_eq_none.mpr (fun x hx => by simp [h x hx])
    simp [pickForDay, hfind]

/-- C3 (amended) : the forecast entry of each of the first 5 distinct days
renders the pick of that day of the grouping; the grouping collects items
by UTC calendar day; and the pick takes the first item of the day whose
local hour of day lies in 11..13, that is with a timestamp anywhere in
[11:00, 14:00) local time, falling back to the first item of the day when
no hour matches. -/
theorem c3_noon_selection (off now : Nat) (cd : CurrentData)
    (fl : List ForecastItem) (i : Nat)
    (hi : i < (groupByDay fl).length) (hi5 : i < 5) :
    ((formatWeatherDataFromAPI25 off now cd fl).forecast.getD i ⟨"", 0, ""⟩ =
      renderItem off (pickForDay off ((groupByDay fl).getD i (0, [])).2)) ∧
    (∀ g ∈ groupByDay fl, ∀ it ∈ g.2, dayKey it.dt = g.1) ∧
    (∀ items : List ForecastItem,
      ((∃ it ∈ items, isNoonItem off it = true) →
        ∃ n, ∃ hn : n < items.length,
          isNoonItem off (items.getD n ⟨0, 0, ""⟩) = true ∧
          pickForDay off items = items.getD n ⟨0, 0, ""⟩ ∧
          ∀ j, j < n → isNoonItem off (items.getD j ⟨0, 0, ""⟩) = false) ∧
      ((∀ it ∈ items, isNoonItem off it = false) →
        pickForDay off items = items.headD ⟨0, 0, ""⟩)) := by
  refine ⟨?_, groupByDay_keys fl, fun items => pickForDay_spec off items⟩
  have hplen : (processedForecast off fl).length = min (groupByDay fl).length 5 :=
    processedForecast_length off fl
  have hip : i < (processedForecast off fl).length := by omega
  have hfc : (formatWeatherDataFromAPI25 off now cd fl).forecast =
      fillForecast off now cd.temp (processedForecast off fl) := rfl
  rw [hfc, fillForecast_eq_append off now cd.temp 5 _ (by omega),
    List.getD_eq_getElem?_getD, List.getElem?_append, if_pos hip]
  simp only [processedForecast, List.getElem?_map, List.getElem?_take, if_pos hi5,
    List.getElem?_eq_getElem hi, Option.map_some', Option.getD_some]
  rw [List.getD_eq_getElem?_getD, List.getElem?_eq_getElem hi, Option.getD_some]

/-- Witness for C3 : a single day holding a 09:00 item and a 12:00 item;
entry 0 of the forecast renders the pick of that day. -/
theorem c3_witness :
    0 < (groupByDay ([⟨32400, 1, "Rain"⟩, ⟨43200, 9, "Clear"⟩] : List ForecastItem)).length ∧
    (0 : Nat) < 5 ∧
    ((formatWeatherDataFromAPI25 0 0 ⟨20, 25, 15, 50, 5, none, "Clouds"⟩
        [⟨32400, 1, "Rain"⟩, ⟨43200, 9, "Clear"⟩]).forecast.getD 0 ⟨"", 0, ""⟩ =
      renderItem 0 (pickForDay 0
        ((groupByDay ([⟨32400, 1, "Rain"⟩, ⟨43200, 9, "Clear"⟩] : List ForecastItem)).getD
          0 (0, [])).2)) :=
  ⟨by decide, by decide,
   (c3_noon_selection 0 0 ⟨20, 25, 15, 50, 5, none, "Clouds"⟩
     [⟨32400, 1, "Rain"⟩, ⟨43200, 9, "Clear"⟩] 0 (by decide) (by decide)).1⟩

/-- Counterexample to C3 : with a day holding a 09:00 item and a 13:30
item, no timestamp falls between 11:00 and 13:00 local time, so the claim
requires the first entry of the day (09:00, "Rain") to be chosen; the code
instead accepts the 13:30 item, because the hour test getHours() <= 13
also admits 13:01 to 13:59. -/
theorem c3_counterexample :
    (∀ it ∈ ([⟨32400, 1, "Rain"⟩, ⟨48600, 9, "Snow"⟩] : List ForecastItem),
      ¬ (39600 ≤ it.dt % 86400 ∧ it.dt % 86400 ≤ 46800)) ∧
    ((formatWeatherDataFromAPI25 0 0 ⟨20, 25, 15, 50, 5, none, "Clouds"⟩
        [⟨32400, 1, "Rain"⟩, ⟨48600, 9, "Snow"⟩]).forecast.getD 0 ⟨"", 0, ""⟩).condition =
      "snow" ∧
    (renderItem 0 (([⟨32400, 1, "Rain"⟩, ⟨48600, 9, "Snow"⟩] :
        List ForecastItem).headD ⟨0, 0, ""⟩)).condition = "rain" ∧
    ("snow" : String) ≠ "rain" := by
  refine ⟨by decide, ?_, rfl, by decide⟩
  have h1 : (formatWeatherDataFromAPI25 0 0 ⟨20, 25, 15, 50, 5, none, "Clouds"⟩
      [⟨32400, 1, "Rain"⟩, ⟨48600, 9, "Snow"⟩]).forecast =
      fillForecast 0 0 20 [renderItem 0 ⟨48600, 9, "Snow"⟩] := rfl
  rw [h1, fillForecast_eq_append 0 0 20 5 _ (by decide)]
  rfl
